import Mathlib

/-!
A shallow embedding of `src/lib/actions.ts` from the cs-case-simulator
repository: server actions for unboxing cases, persisting unbox events to a
database table, querying them, and managing the anonymous `unboxerId` cookie.

Modelling choices:
* The static case catalog (`casesData`, loaded from bundled JSON files) is a
  parameter `catalog : List CaseDataType`.
* The weighted item-selection helper `getItem` (in `@/utils/getItem`, outside
  this excerpt) is an abstract parameter `getItem : CaseDataType → ItemType`.
* The request environment `Env` carries the cookie jar (just the `unboxerId`
  cookie), the database table, the value `crypto.randomUUID()` would produce,
  and an oracle `dbFails` saying whether a database statement rejects.
* Exported actions return `Except String (result × Env)`: `.error` models an
  uncaught exception escaping to the caller, and the `false` sentinel of the
  source is `false` / `none` inside `.ok`.
* `waitUntil(promise)` defers the write past the response but still runs it
  within the request lifecycle; we run the write and discard its outcome, so
  the returned value never depends on it.
-/

namespace CaseSim

/-- Rarity object of an item; only its `name` field is read by the code. -/
structure Rarity where
  name : String
deriving Repr, DecidableEq

/-- The `phase` field of an item payload: in TypeScript it is a string,
`null`, or absent (`undefined`); the zod schema is `.optional().nullable()`. -/
inductive PhaseField where
  | str (s : String)
  | null
  | undef
deriving Repr, DecidableEq

/-- `phase ?? null` — both `undefined` and `null` collapse to SQL NULL
(modelled as `none`); a string is stored as-is. -/
def PhaseField.toDB : PhaseField → Option String
  | .str s => some s
  | .null => none
  | .undef => none

/-- The fields of a catalog case that this module reads (the real
`CaseDataType` has more fields; only `id`, `name`, `image` are used here). -/
structure CaseDataType where
  id : String
  name : String
  image : String
deriving Repr, DecidableEq

/-- An item payload as produced by the selection helper. -/
structure ItemType where
  id : String
  name : String
  rarity : Rarity
  phase : PhaseField
  image : String
deriving Repr, DecidableEq

/-- A persisted row of the `items` table. -/
structure ItemRow where
  id : Nat
  caseId : String
  caseName : String
  caseImage : String
  itemId : String
  itemName : String
  rarity : String
  phase : Option String
  itemImage : String
  unboxerId : String
deriving Repr, DecidableEq

/-- The values object passed to `db.insert(items).values({...})`:
an `ItemRow` without the auto-increment `id`. -/
structure ItemInsert where
  caseId : String
  caseName : String
  caseImage : String
  itemId : String
  itemName : String
  rarity : String
  phase : Option String
  itemImage : String
  unboxerId : String
deriving Repr, DecidableEq

/-- Attach an auto-increment id to an insert-values object. -/
def ItemInsert.withId (v : ItemInsert) (n : Nat) : ItemRow :=
  { id := n, caseId := v.caseId, caseName := v.caseName, caseImage := v.caseImage,
    itemId := v.itemId, itemName := v.itemName, rarity := v.rarity,
    phase := v.phase, itemImage := v.itemImage, unboxerId := v.unboxerId }

/-- The database table: rows in insertion order plus the next auto-id. -/
structure DB where
  rows : List ItemRow
  nextId : Nat
deriving Repr, DecidableEq

/-- Assign consecutive auto-increment ids starting at `n`. -/
def assignIds : Nat → List ItemInsert → List ItemRow
  | _, [] => []
  | n, v :: vs => v.withId n :: assignIds (n + 1) vs

/-- A multi-row `INSERT`: appends the rows with fresh consecutive ids. -/
def DB.insertMany (db : DB) (vs : List ItemInsert) : DB :=
  { rows := db.rows ++ assignIds db.nextId vs, nextId := db.nextId + vs.length }

/-- The request environment threaded through every action. -/
structure Env where
  /-- Current value of the `unboxerId` cookie, if set. -/
  cookie : Option String
  /-- The `items` table. -/
  db : DB
  /-- The value `crypto.randomUUID()` produces on this request. -/
  freshUuid : String
  /-- Whether a database statement on this request rejects (throws). -/
  dbFails : Bool
deriving Repr, DecidableEq

/-! ## The UUID regex

`/^[0-9a-f]{8}-[0-9a-f]{4}-[0-5][0-9a-f]{3}-[089ab][0-9a-f]{3}-[0-9a-f]{12}$/i`
checked positionally over the 36 characters. The `/i` flag makes the hex
classes and `[089ab]` case-insensitive. -/

/-- A hex digit under the case-insensitive flag. -/
def isUuidHexDigit (c : Char) : Bool :=
  ('0' ≤ c && c ≤ '9') || ('a' ≤ c && c ≤ 'f') || ('A' ≤ c && c ≤ 'F')

/-- What the regex requires of the character at position `i`. -/
def uuidCharOk (i : Nat) (c : Char) : Bool :=
  if i == 8 || i == 13 || i == 18 || i == 23 then c == '-'
  else if i == 14 then '0' ≤ c && c ≤ '5'
  else if i == 19 then
    c == '0' || c == '8' || c == '9' || c == 'a' || c == 'b' || c == 'A' || c == 'B'
  else isUuidHexDigit c

/-- The full anchored regex test used by `getOrCreateUnboxerIdCookie`. -/
def isValidUUID (s : String) : Bool :=
  s.data.length == 36 && s.data.enum.all fun p => uuidCharOk p.1 p.2

/-- `getOrCreateUnboxerIdCookie`: reuse a well-formed cookie value, otherwise
generate a fresh UUID, set it as the cookie, and return it. (The source also
sets a one-year expiry and `httpOnly`; no claim concerns those attributes.) -/
def getOrCreateUnboxerIdCookie (env : Env) : String × Env :=
  match env.cookie with
  | some v =>
    if isValidUUID v then (v, env)
    else (env.freshUuid, { env with cookie := some env.freshUuid })
  | none => (env.freshUuid, { env with cookie := some env.freshUuid })

/-- JavaScript's `String.prototype.startsWith`: the receiver's character
sequence begins with the argument's. -/
def jsStartsWith (s pre : String) : Bool :=
  pre.data.isPrefixOf s.data

/-! ## Validation schema -/

/-- The image-URL refinement shared by both branches of `dataSchema`. -/
def trustedImageUrl (u : String) : Bool :=
  jsStartsWith u "https://raw.githubusercontent.com/ByMykel" ||
  jsStartsWith u "https://steamcdn-a.akamaihd.net/apps/730/icons"

/-- `dataSchema.safeParse({caseData, itemData})` on an already-typed payload:
the structural string checks cannot fail on typed data, so the outcome is
exactly the two URL refinements. -/
def dataSchemaCheck (c : CaseDataType) (i : ItemType) : Bool :=
  trustedImageUrl c.image && trustedImageUrl i.image

/-- The values object built for one `(caseData, itemData)` pair.
`addItemToDB` passes `phase` through directly (an `undefined` value is dropped
by the ORM and the nullable column stores NULL); `addItemsToDB` writes
`phase ?? null`; both store `PhaseField.toDB`. -/
def rowVals (c : CaseDataType) (i : ItemType) (uid : String) : ItemInsert :=
  { caseId := c.id, caseName := c.name, caseImage := c.image,
    itemId := i.id, itemName := i.name, rarity := i.rarity.name,
    phase := i.phase.toDB, itemImage := i.image, unboxerId := uid }

/-! ## Database primitives (the statements that can reject) -/

/-- `await db.insert(items).values(...)`: rejects when the oracle says so. -/
def dbInsertMany (env : Env) (vs : List ItemInsert) : Except String Env :=
  if env.dbFails then Except.error "insert rejected"
  else Except.ok { env with db := env.db.insertMany vs }

/-- `itemIsCovert`: `inArray(items.rarity, ["Covert", "Extraordinary"])`. -/
def itemIsCovert (r : ItemRow) : Bool :=
  r.rarity == "Covert" || r.rarity == "Extraordinary"

/-- `itemIsPersonal(id)`: `eq(items.unboxerId, id)`. -/
def itemIsPersonal (uid : String) (r : ItemRow) : Bool :=
  r.unboxerId == uid

/-- The `where(and(...))` clause: each conditionally-present conjunct is
`undefined` (always true) when its flag is off. -/
def rowFilter (onlyCoverts onlyPersonal : Bool) (uid : String) (r : ItemRow) : Bool :=
  (!onlyCoverts || itemIsCovert r) && (!onlyPersonal || itemIsPersonal uid r)

/-- The `SELECT ... WHERE ... ORDER BY id DESC LIMIT 100` statement. -/
def dbSelectRows (env : Env) (pred : ItemRow → Bool) : Except String (List ItemRow) :=
  if env.dbFails then Except.error "select rejected"
  else Except.ok (((env.db.rows.filter pred).mergeSort fun a b => b.id ≤ a.id).take 100)

/-- The count/max statement of `getTotalItemsFromDB`:
`SELECT count(*)` (resp. `SELECT max(id)`) with the same `where` clause.
SQL `MAX` over an empty set is NULL, modelled as `none`. -/
def dbSelectTotal (env : Env) (useCount : Bool) (pred : ItemRow → Bool) :
    Except String (Option Nat) :=
  if env.dbFails then Except.error "select rejected"
  else
    let filtered := env.db.rows.filter pred
    Except.ok (if useCount then some filtered.length else (filtered.map (·.id)).max?)

/-! ## Exported actions -/

/-- `addItemToDB`: validate, resolve the unboxer id, insert one row inside
`try/catch`, returning `true` on success and `false` on any failure. -/
def addItemToDB (c : CaseDataType) (i : ItemType) (env : Env) :
    Except String (Bool × Env) :=
  if dataSchemaCheck c i then
    let r := getOrCreateUnboxerIdCookie env
    match dbInsertMany r.2 [rowVals c i r.1] with
    | Except.ok env2 => Except.ok (true, env2)
    | Except.error _ => Except.ok (false, r.2)
  else Except.ok (false, env)

/-- `addItemsToDB`: validate the whole array with `z.array(dataSchema)`,
resolve the unboxer id once, insert all rows in one statement inside
`try/catch`. -/
def addItemsToDB (data : List (CaseDataType × ItemType)) (env : Env) :
    Except String (Bool × Env) :=
  if data.all fun p => dataSchemaCheck p.1 p.2 then
    let r := getOrCreateUnboxerIdCookie env
    match dbInsertMany r.2 (data.map fun p => rowVals p.1 p.2 r.1) with
    | Except.ok env2 => Except.ok (true, env2)
    | Except.error _ => Except.ok (false, r.2)
  else Except.ok (false, env)

/-- `unboxCase`: look the case up in the catalog, draw an item, schedule the
persistence write via `waitUntil` unless the case id starts with
`crate-custom`, and return the drawn item. A rejection of the deferred write
is `waitUntil`'s to observe, never the caller's. -/
def unboxCase (catalog : List CaseDataType) (getItem : CaseDataType → ItemType)
    (caseId : String) (env : Env) : Except String (Option ItemType × Env) :=
  match catalog.find? fun x => x.id == caseId with
  | none => Except.ok (none, env)
  | some caseData =>
    let openedItem := getItem caseData
    if jsStartsWith caseData.id "crate-custom" then Except.ok (some openedItem, env)
    else
      match addItemToDB caseData openedItem env with
      | Except.ok (_, env2) => Except.ok (some openedItem, env2)
      | Except.error _ => Except.ok (some openedItem, env)

/-- `getItemsFromDB`: up to 100 rows, newest first, optionally filtered to
covert rarities and/or to the requester's unboxer id (the cookie is only read
or created when `onlyPersonal` is set). `none` is the `false` sentinel. -/
def getItemsFromDB (onlyCoverts onlyPersonal : Bool) (env : Env) :
    Except String (Option (List ItemRow) × Env) :=
  let r := if onlyPersonal then getOrCreateUnboxerIdCookie env else ("", env)
  match dbSelectRows r.2 (rowFilter onlyCoverts onlyPersonal r.1) with
  | Except.ok rows => Except.ok (some rows, r.2)
  | Except.error _ => Except.ok (none, r.2)

/-- `getTotalItemsFromDB`: `count(*)` when any filter is active, `max(id)`
otherwise, with `?? 0` turning a NULL result into `0`.
`none` is the `false` sentinel. -/
def getTotalItemsFromDB (onlyCoverts onlyPersonal : Bool) (env : Env) :
    Except String (Option Nat × Env) :=
  let r := if onlyPersonal then getOrCreateUnboxerIdCookie env else ("", env)
  match dbSelectTotal r.2 (onlyCoverts || onlyPersonal)
      (rowFilter onlyCoverts onlyPersonal r.1) with
  | Except.ok v => Except.ok (some (v.getD 0), r.2)
  | Except.error _ => Except.ok (none, r.2)

/-! ## Helper lemmas -/

/-- Reading or creating the cookie never touches the database, the failure
oracle, or the fresh-UUID oracle. -/
theorem getOrCreate_preserves (env : Env) :
    (getOrCreateUnboxerIdCookie env).2.db = env.db ∧
    (getOrCreateUnboxerIdCookie env).2.dbFails = env.dbFails ∧
    (getOrCreateUnboxerIdCookie env).2.freshUuid = env.freshUuid := by
  rcases h : env.cookie with _ | v <;> simp [getOrCreateUnboxerIdCookie, h]
  split <;> simp

/-! ## Concrete sample data for closed instances -/

/-- A non-custom catalog case with a trusted image URL. -/
def caseW : CaseDataType :=
  { id := "crate-4001", name := "Test Case",
    image := "https://raw.githubusercontent.com/ByMykel/counter-strike-image-tracker/main/static/panorama/images/econ/weapon_cases/crate_4001_png.png" }

/-- A custom case (id under the `crate-custom` namespace). -/
def caseCustomW : CaseDataType :=
  { id := "crate-custom-1", name := "Custom Case",
    image := "https://example.com/custom.png" }

/-- A case whose image URL is on neither trusted host. -/
def caseBadW : CaseDataType :=
  { id := "crate-4002", name := "Bad Case", image := "https://evil.example/case.png" }

/-- A sample item payload with a trusted image URL. -/
def itemW : ItemType :=
  { id := "skin-1", name := "AK-47 | Redline", rarity := { name := "Covert" },
    phase := PhaseField.undef,
    image := "https://steamcdn-a.akamaihd.net/apps/730/icons/econ/default_generated/weapon_ak47.png" }

/-- A deterministic stand-in for the weighted item-selection helper. -/
def getItemW : CaseDataType → ItemType := fun _ => itemW

/-- A well-formed UUID under the source regex. -/
def uuidW : String := "0f3a9b2c-1d4e-4f5a-8b6c-7d8e9f0a1b2c"

/-- A sample persisted row. -/
def rowW : ItemRow :=
  { id := 1, caseId := "crate-4001", caseName := "Test Case", caseImage := "img",
    itemId := "skin-1", itemName := "AK-47 | Redline", rarity := "Covert",
    phase := none, itemImage := "img2", unboxerId := uuidW }

/-! ## Claim theorems -/

/-- C1. `getOrCreateUnboxerIdCookie`: with no cookie, the fresh UUID is set
and returned (and is UUID-formatted); with a well-formed cookie, that exact
value is returned and the request state is untouched; with a malformed
cookie, the fresh UUID overwrites it and is returned. -/
theorem getOrCreateUnboxerIdCookie_spec (env : Env)
    (hfresh : isValidUUID env.freshUuid = true) :
    (env.cookie = none →
      (getOrCreateUnboxerIdCookie env).1 = env.freshUuid ∧
      isValidUUID (getOrCreateUnboxerIdCookie env).1 = true ∧
      (getOrCreateUnboxerIdCookie env).2 = { env with cookie := some env.freshUuid }) ∧
    (∀ v, env.cookie = some v → isValidUUID v = true →
      (getOrCreateUnboxerIdCookie env).1 = v ∧
      (getOrCreateUnboxerIdCookie env).2 = env) ∧
    (∀ v, env.cookie = some v → isValidUUID v = false →
      (getOrCreateUnboxerIdCookie env).1 = env.freshUuid ∧
      isValidUUID (getOrCreateUnboxerIdCookie env).1 = true ∧
      (getOrCreateUnboxerIdCookie env).2 = { env with cookie := some env.freshUuid }) := by
  refine ⟨fun h => ?_, fun v h hv => ?_, fun v h hv => ?_⟩
  · simp [getOrCreateUnboxerIdCookie, h, hfresh]
  · simp [getOrCreateUnboxerIdCookie, h, hv]
  · simp [getOrCreateUnboxerIdCookie, h, hv, hfresh]

/-- C1 witness: concrete no-cookie request with a concrete fresh UUID. -/
theorem getOrCreateUnboxerIdCookie_spec_witness :
    isValidUUID
      (Env.mk none ⟨[], 1⟩ uuidW false).freshUuid = true ∧
    ((Env.mk none ⟨[], 1⟩ uuidW false).cookie = none →
      (getOrCreateUnboxerIdCookie (Env.mk none ⟨[], 1⟩ uuidW false)).1 =
        (Env.mk none ⟨[], 1⟩ uuidW false).freshUuid ∧
      isValidUUID (getOrCreateUnboxerIdCookie (Env.mk none ⟨[], 1⟩ uuidW false)).1 = true ∧
      (getOrCreateUnboxerIdCookie (Env.mk none ⟨[], 1⟩ uuidW false)).2 =
        { Env.mk none ⟨[], 1⟩ uuidW false with
            cookie := some (Env.mk none ⟨[], 1⟩ uuidW false).freshUuid }) ∧
    (∀ v, (Env.mk none ⟨[], 1⟩ uuidW false).cookie = some v → isValidUUID v = true →
      (getOrCreateUnboxerIdCookie (Env.mk none ⟨[], 1⟩ uuidW false)).1 = v ∧
      (getOrCreateUnboxerIdCookie (Env.mk none ⟨[], 1⟩ uuidW false)).2 =
        Env.mk none ⟨[], 1⟩ uuidW false) ∧
    (∀ v, (Env.mk none ⟨[], 1⟩ uuidW false).cookie = some v → isValidUUID v = false →
      (getOrCreateUnboxerIdCookie (Env.mk none ⟨[], 1⟩ uuidW false)).1 =
        (Env.mk none ⟨[], 1⟩ uuidW false).freshUuid ∧
      isValidUUID (getOrCreateUnboxerIdCookie (Env.mk none ⟨[], 1⟩ uuidW false)).1 = true ∧
      (getOrCreateUnboxerIdCookie (Env.mk none ⟨[], 1⟩ uuidW false)).2 =
        { Env.mk none ⟨[], 1⟩ uuidW false with
            cookie := some (Env.mk none ⟨[], 1⟩ uuidW false).freshUuid }) :=
  ⟨by decide, getOrCreateUnboxerIdCookie_spec (Env.mk none ⟨[], 1⟩ uuidW false) (by decide)⟩

/-- C2. Unboxing an id absent from the catalog returns the `false` sentinel
and leaves the whole request state — in particular the database — unchanged:
no insert is executed or scheduled. -/
theorem unboxCase_unknown_id (catalog : List CaseDataType)
    (getItem : CaseDataType → ItemType) (caseId : String) (env : Env)
    (h : ∀ c ∈ catalog, c.id ≠ caseId) :
    unboxCase catalog getItem caseId env = Except.ok (none, env) := by
  have hf : (catalog.find? fun x => x.id == caseId) = none :=
    List.find?_eq_none.mpr fun c hc => by simpa using h c hc
  simp [unboxCase, hf]

/-- C2 witness: a one-case catalog queried with a different id. -/
theorem unboxCase_unknown_id_witness :
    (∀ c ∈ [caseW], c.id ≠ "crate-9999") ∧
    unboxCase [caseW] getItemW "crate-9999" (Env.mk none ⟨[], 1⟩ uuidW false) =
      Except.ok (none, Env.mk none ⟨[], 1⟩ uuidW false) :=
  ⟨by decide, unboxCase_unknown_id [caseW] getItemW "crate-9999" _ (by decide)⟩

/-- C3. Unboxing a case whose id starts with the `crate-custom` namespace
returns the drawn item but leaves the request state — in particular the
database — untouched: the persistence write is never scheduled. -/
theorem unboxCase_custom_no_write (catalog : List CaseDataType)
    (getItem : CaseDataType → ItemType) (caseId : String) (env : Env)
    (c : CaseDataType)
    (hfind : (catalog.find? fun x => x.id == caseId) = some c)
    (hcustom : jsStartsWith c.id "crate-custom" = true) :
    unboxCase catalog getItem caseId env = Except.ok (some (getItem c), env) := by
  simp [unboxCase, hfind, hcustom]

/-- C3 witness: the custom sample case is found and unboxed without a write. -/
theorem unboxCase_custom_no_write_witness :
    ((([caseW, caseCustomW] : List CaseDataType).find?
        fun x => x.id == "crate-custom-1") = some caseCustomW) ∧
    jsStartsWith caseCustomW.id "crate-custom" = true ∧
    unboxCase [caseW, caseCustomW] getItemW "crate-custom-1"
        (Env.mk none ⟨[], 1⟩ uuidW false) =
      Except.ok (some (getItemW caseCustomW), Env.mk none ⟨[], 1⟩ uuidW false) :=
  ⟨by decide, by decide,
    unboxCase_custom_no_write [caseW, caseCustomW] getItemW "crate-custom-1" _
      caseCustomW (by decide) (by decide)⟩

/-- C4. For a case id found in the catalog, `unboxCase` returns exactly the
item the selection helper draws for that case, and — quantifying over the
failure oracle `b` of the deferred persistence write — that return value is
the same whether the write succeeds or fails. -/
theorem unboxCase_returns_drawn_item (catalog : List CaseDataType)
    (getItem : CaseDataType → ItemType) (caseId : String) (env : Env)
    (c : CaseDataType) (b : Bool)
    (hfind : (catalog.find? fun x => x.id == caseId) = some c) :
    (unboxCase catalog getItem caseId { env with dbFails := b }).map Prod.fst =
      Except.ok (some (getItem c)) := by
  simp only [unboxCase, hfind]
  split
  · rfl
  · cases h2 : addItemToDB c (getItem c) { env with dbFails := b } with
    | ok p =>
      rcases p with ⟨ok1, env2⟩
      simp [h2, Except.map]
    | error e =>
      simp [h2, Except.map]

/-- C4 witness: the sample case at both values of the failure oracle. -/
theorem unboxCase_returns_drawn_item_witness :
    ((([caseW] : List CaseDataType).find? fun x => x.id == "crate-4001") = some caseW) ∧
    (unboxCase [caseW] getItemW "crate-4001"
        { Env.mk none ⟨[], 1⟩ uuidW false with dbFails := false }).map Prod.fst =
      Except.ok (some (getItemW caseW)) ∧
    (unboxCase [caseW] getItemW "crate-4001"
        { Env.mk none ⟨[], 1⟩ uuidW false with dbFails := true }).map Prod.fst =
      Except.ok (some (getItemW caseW)) :=
  ⟨by decide,
    unboxCase_returns_drawn_item [caseW] getItemW "crate-4001" _ caseW false (by decide),
    unboxCase_returns_drawn_item [caseW] getItemW "crate-4001" _ caseW true (by decide)⟩

/-- C5. A payload whose case image URL or item image URL is on neither
trusted host fails the schema: `addItemToDB` returns `false` with the state
(hence the table) unchanged, and any `addItemsToDB` batch containing the
payload does the same. -/
theorem addItem_untrusted_url_rejected (c : CaseDataType) (i : ItemType) (env : Env)
    (h : trustedImageUrl c.image = false ∨ trustedImageUrl i.image = false) :
    addItemToDB c i env = Except.ok (false, env) ∧
    ∀ data : List (CaseDataType × ItemType), (c, i) ∈ data →
      addItemsToDB data env = Except.ok (false, env) := by
  have hc : dataSchemaCheck c i = false := by
    unfold dataSchemaCheck
    rcases h with h | h <;> simp [h]
  refine ⟨by simp [addItemToDB, hc], fun data hm => ?_⟩
  have hall : (data.all fun p => dataSchemaCheck p.1 p.2) = false :=
    List.all_eq_false.mpr ⟨(c, i), hm, by simp [hc]⟩
  simp [addItemsToDB, hall]

/-- C5 witness: a concrete payload with an untrusted case image URL. -/
theorem addItem_untrusted_url_rejected_witness :
    (trustedImageUrl caseBadW.image = false ∨ trustedImageUrl itemW.image = false) ∧
    (addItemToDB caseBadW itemW (Env.mk none ⟨[], 1⟩ uuidW false) =
        Except.ok (false, Env.mk none ⟨[], 1⟩ uuidW false) ∧
      ∀ data : List (CaseDataType × ItemType), (caseBadW, itemW) ∈ data →
        addItemsToDB data (Env.mk none ⟨[], 1⟩ uuidW false) =
          Except.ok (false, Env.mk none ⟨[], 1⟩ uuidW false)) :=
  ⟨Or.inl (by decide),
    addItem_untrusted_url_rejected caseBadW itemW _ (Or.inl (by decide))⟩

/-- C10. On an empty table with neither filter set, the `max(id)` aggregate
is SQL NULL and `getTotalItemsFromDB` returns the number `0` — not the
`false` sentinel and not NULL. -/
theorem getTotalItemsFromDB_empty_table (env : Env)
    (h0 : env.db.rows = []) (hdb : env.dbFails = false) :
    getTotalItemsFromDB false false env = Except.ok (some 0, env) := by
  simp [getTotalItemsFromDB, dbSelectTotal, hdb, h0]

/-- C10 witness: the concrete empty-table request. -/
theorem getTotalItemsFromDB_empty_table_witness :
    (Env.mk none ⟨[], 1⟩ uuidW false).db.rows = [] ∧
    (Env.mk none ⟨[], 1⟩ uuidW false).dbFails = false ∧
    getTotalItemsFromDB false false (Env.mk none ⟨[], 1⟩ uuidW false) =
      Except.ok (some 0, Env.mk none ⟨[], 1⟩ uuidW false) :=
  ⟨rfl, rfl, getTotalItemsFromDB_empty_table _ rfl rfl⟩

/-- Every row produced by `assignIds` is some input values-object with an id
attached. -/
theorem mem_assignIds {row : ItemRow} :
    ∀ (n : Nat) (vs : List ItemInsert), row ∈ assignIds n vs →
      ∃ v ∈ vs, ∃ k, row = v.withId k := by
  intro n vs
  induction vs generalizing n with
  | nil => simp [assignIds]
  | cons v vs ih =>
    intro hm
    rcases hm with _ | ⟨_, hm⟩
    · exact ⟨v, by simp, n, rfl⟩
    · obtain ⟨w, hw, k, hk⟩ := ih (n + 1) hm
      exact ⟨w, by simp [hw], k, hk⟩

/-- Pointwise correspondence between the rows `assignIds` builds from a
mapped list and the original list. -/
theorem forall2_assignIds {α : Type} (P : ItemRow → α → Prop)
    (f : α → ItemInsert) (hp : ∀ a n, P ((f a).withId n) a) :
    ∀ (n : Nat) (l : List α), List.Forall₂ P (assignIds n (l.map f)) l := by
  intro n l
  induction l generalizing n with
  | nil => simp [assignIds]
  | cons a l ih =>
    exact List.Forall₂.cons (hp a n) (ih (n + 1))

/-- C9. A successful `addItemsToDB` call appends exactly its batch as new
rows: each new row carries the single unboxer id resolved before the insert,
and each row's phase is the payload's phase when that is a string, and NULL
when the payload's phase is null or undefined. -/
theorem addItemsToDB_row_invariants (data : List (CaseDataType × ItemType)) (env : Env)
    (hvalid : (data.all fun p => dataSchemaCheck p.1 p.2) = true)
    (hdb : env.dbFails = false) :
    ∃ env2 : Env, ∃ newRows : List ItemRow,
      addItemsToDB data env = Except.ok (true, env2) ∧
      env2.db.rows = env.db.rows ++ newRows ∧
      (∀ row ∈ newRows, row.unboxerId = (getOrCreateUnboxerIdCookie env).1) ∧
      List.Forall₂ (fun (row : ItemRow) (p : CaseDataType × ItemType) =>
        match p.2.phase with
        | PhaseField.str s => row.phase = some s
        | PhaseField.null => row.phase = none
        | PhaseField.undef => row.phase = none) newRows data := by
  have hpres := getOrCreate_preserves env
  set r := getOrCreateUnboxerIdCookie env with hr
  have hdb2 : r.2.dbFails = false := hpres.2.1.trans hdb
  refine ⟨{ r.2 with db := r.2.db.insertMany (data.map fun p => rowVals p.1 p.2 r.1) },
    assignIds r.2.db.nextId (data.map fun p => rowVals p.1 p.2 r.1),
    ?_, ?_, ?_, ?_⟩
  · simp [addItemsToDB, hvalid, dbInsertMany, hdb2, ← hr]
  · simp [DB.insertMany, hpres.1]
  · intro row hm
    obtain ⟨v, hv, k, hk⟩ := mem_assignIds _ _ hm
    obtain ⟨p, _, rfl⟩ := List.mem_map.mp hv
    simp [hk, ItemInsert.withId, rowVals]
  · refine forall2_assignIds _ _ (fun p n => ?_) _ _
    cases hph : p.2.phase <;>
      simp [ItemInsert.withId, rowVals, PhaseField.toDB, hph]

/-- C9 witness: a two-payload batch, one string phase and one null phase. -/
theorem addItemsToDB_row_invariants_witness :
    (([(caseW, itemW),
       (caseW, { itemW with phase := PhaseField.str "Phase 2" })].all
        fun p => dataSchemaCheck p.1 p.2) = true) ∧
    (Env.mk none ⟨[], 1⟩ uuidW false).dbFails = false ∧
    (∃ env2 : Env, ∃ newRows : List ItemRow,
      addItemsToDB [(caseW, itemW),
          (caseW, { itemW with phase := PhaseField.str "Phase 2" })]
          (Env.mk none ⟨[], 1⟩ uuidW false) =
        Except.ok (true, env2) ∧
      env2.db.rows = (Env.mk none ⟨[], 1⟩ uuidW false).db.rows ++ newRows ∧
      (∀ row ∈ newRows, row.unboxerId =
        (getOrCreateUnboxerIdCookie (Env.mk none ⟨[], 1⟩ uuidW false)).1) ∧
      List.Forall₂ (fun (row : ItemRow) (p : CaseDataType × ItemType) =>
        match p.2.phase with
        | PhaseField.str s => row.phase = some s
        | PhaseField.null => row.phase = none
        | PhaseField.undef => row.phase = none) newRows
        [(caseW, itemW),
         (caseW, { itemW with phase := PhaseField.str "Phase 2" })]) :=
  ⟨by decide, rfl, addItemsToDB_row_invariants _ _ (by decide) rfl⟩

/-- When the database does not fail, the select statement returns at most
100 rows, sorted descending by id, all satisfying the `where` predicate. -/
theorem dbSelectRows_ok (env : Env) (pred : ItemRow → Bool)
    (hdb : env.dbFails = false) :
    ∃ rows : List ItemRow, dbSelectRows env pred = Except.ok rows ∧
      rows.length ≤ 100 ∧
      rows.Pairwise (fun a b : ItemRow => b.id ≤ a.id) ∧
      ∀ x ∈ rows, pred x = true := by
  have hmain : dbSelectRows env pred =
      Except.ok (((env.db.rows.filter pred).mergeSort fun a b => b.id ≤ a.id).take 100) := by
    simp [dbSelectRows, hdb]
  refine ⟨_, hmain, List.length_take_le 100 _, ?_, ?_⟩
  · have hs := @List.sorted_mergeSort _ (fun a b : ItemRow => decide (b.id ≤ a.id))
      (fun a b c hab hbc => by
        simp only [decide_eq_true_eq] at *
        omega)
      (fun a b => by simpa using Nat.le_total b.id a.id)
      (env.db.rows.filter pred)
    exact List.Pairwise.sublist (List.take_sublist 100 _)
      (hs.imp fun h => by simpa using h)
  · intro x hx
    have hx2 : x ∈ env.db.rows.filter pred :=
      List.mem_mergeSort.1 (List.mem_of_mem_take hx)
    exact (List.mem_filter.1 hx2).2

/-- C6. `getItemsFromDB` succeeds when the database does: it returns at most
100 rows ordered descending by id; with `onlyCoverts` every row's rarity is
Covert or Extraordinary; with `onlyPersonal` every row's unboxer id is the
requester's (the cookie value resolved for this request); both flags give the
conjunction. -/
theorem getItemsFromDB_spec (onlyCoverts onlyPersonal : Bool) (env : Env)
    (hdb : env.dbFails = false) :
    ∃ rows : List ItemRow, ∃ env2 : Env,
      getItemsFromDB onlyCoverts onlyPersonal env = Except.ok (some rows, env2) ∧
      rows.length ≤ 100 ∧
      rows.Pairwise (fun a b : ItemRow => b.id ≤ a.id) ∧
      (onlyCoverts = true →
        ∀ x ∈ rows, x.rarity = "Covert" ∨ x.rarity = "Extraordinary") ∧
      (onlyPersonal = true →
        ∀ x ∈ rows, x.unboxerId = (getOrCreateUnboxerIdCookie env).1) := by
  have hpers := getOrCreate_preserves env
  set r := if onlyPersonal then getOrCreateUnboxerIdCookie env else ("", env) with hr
  have hdb2 : r.2.dbFails = false := by
    cases onlyPersonal <;> simp [hr, hdb, hpers.2.1]
  obtain ⟨rows, hsel, hlen, hpair, hall⟩ :=
    dbSelectRows_ok r.2 (rowFilter onlyCoverts onlyPersonal r.1) hdb2
  refine ⟨rows, r.2, ?_, hlen, hpair, ?_, ?_⟩
  · simp only [getItemsFromDB, ← hr, hsel]
  · intro hoc x hx
    have h1 := hall x hx
    simp only [rowFilter, hoc, itemIsCovert, Bool.not_true, Bool.false_or,
      Bool.and_eq_true, Bool.or_eq_true, beq_iff_eq] at h1
    exact h1.1
  · intro hop x hx
    have h1 := hall x hx
    simp only [rowFilter, hop, itemIsPersonal, Bool.not_true, Bool.false_or,
      Bool.and_eq_true, beq_iff_eq] at h1
    have hr1 : r.1 = (getOrCreateUnboxerIdCookie env).1 := by
      simp [hr, hop]
    exact hr1 ▸ h1.2

/-- C6 witness: a three-row table queried with both flags set and a valid
personal cookie. -/
theorem getItemsFromDB_spec_witness :
    (Env.mk (some uuidW)
        ⟨[rowW, { rowW with id := 2, rarity := "Mil-Spec Grade" },
          { rowW with id := 3, unboxerId := "someone-else" }], 4⟩
        uuidW false).dbFails = false ∧
    (∃ rows : List ItemRow, ∃ env2 : Env,
      getItemsFromDB true true
          (Env.mk (some uuidW)
            ⟨[rowW, { rowW with id := 2, rarity := "Mil-Spec Grade" },
              { rowW with id := 3, unboxerId := "someone-else" }], 4⟩
            uuidW false) =
        Except.ok (some rows, env2) ∧
      rows.length ≤ 100 ∧
      rows.Pairwise (fun a b : ItemRow => b.id ≤ a.id) ∧
      (true = true → ∀ x ∈ rows, x.rarity = "Covert" ∨ x.rarity = "Extraordinary") ∧
      (true = true → ∀ x ∈ rows, x.unboxerId =
        (getOrCreateUnboxerIdCookie
          (Env.mk (some uuidW)
            ⟨[rowW, { rowW with id := 2, rarity := "Mil-Spec Grade" },
              { rowW with id := 3, unboxerId := "someone-else" }], 4⟩
            uuidW false)).1)) :=
  ⟨rfl, getItemsFromDB_spec true true _ rfl⟩

/-- C7. `getTotalItemsFromDB` with neither flag set returns the maximum row
id of the (non-empty) table; with any flag set it returns the exact number of
rows satisfying the active filters. -/
theorem getTotalItemsFromDB_spec (onlyCoverts onlyPersonal : Bool) (env : Env)
    (hdb : env.dbFails = false) :
    (onlyCoverts = false → onlyPersonal = false → env.db.rows ≠ [] →
      ∃ m : Nat, getTotalItemsFromDB onlyCoverts onlyPersonal env =
          Except.ok (some m, env) ∧
        (∃ x ∈ env.db.rows, x.id = m) ∧ ∀ x ∈ env.db.rows, x.id ≤ m) ∧
    ((onlyCoverts = true ∨ onlyPersonal = true) →
      ∃ env2 : Env, getTotalItemsFromDB onlyCoverts onlyPersonal env =
        Except.ok (some ((env.db.rows.filter
          (rowFilter onlyCoverts onlyPersonal
            (if onlyPersonal then (getOrCreateUnboxerIdCookie env).1 else ""))).length),
          env2)) := by
  constructor
  · rintro rfl rfl hne
    have hpred : env.db.rows.filter (rowFilter false false "") = env.db.rows :=
      List.filter_eq_self.mpr fun x _ => by simp [rowFilter]
    obtain ⟨m, hm⟩ : ∃ m, (env.db.rows.map (·.id)).max? = some m := by
      rcases h : (env.db.rows.map (·.id)).max? with _ | m
      · exact absurd (by simpa using List.max?_eq_none_iff.1 h) hne
      · exact ⟨m, h⟩
    obtain ⟨hmem, hle⟩ := List.max?_eq_some_iff'.1 hm
    refine ⟨m, ?_, ?_, fun x hx => hle _ (List.mem_map_of_mem _ hx)⟩
    · simp [getTotalItemsFromDB, dbSelectTotal, hdb, hpred, hm]
    · simpa using hmem
  · intro hor
    have huse : (onlyCoverts || onlyPersonal) = true := by
      rcases hor with h | h <;> simp [h]
    have hpers := getOrCreate_preserves env
    set r := if onlyPersonal then getOrCreateUnboxerIdCookie env else ("", env) with hr
    have hdb2 : r.2.dbFails = false := by
      cases onlyPersonal <;> simp [hr, hdb, hpers.2.1]
    have hdbeq : r.2.db = env.db := by
      cases onlyPersonal <;> simp [hr, hpers.1]
    have hr1 : r.1 = if onlyPersonal then (getOrCreateUnboxerIdCookie env).1 else "" := by
      cases onlyPersonal <;> simp [hr]
    refine ⟨r.2, ?_⟩
    simp only [getTotalItemsFromDB, ← hr, dbSelectTotal, hdb2, huse, hdbeq, hr1]
    simp

/-- C7 witness: a one-row table, unfiltered (max id) and covert-filtered
(exact count) calls. -/
theorem getTotalItemsFromDB_spec_witness :
    (Env.mk (some uuidW) ⟨[rowW], 2⟩ uuidW false).dbFails = false ∧
    ((false = false → false = false →
        (Env.mk (some uuidW) ⟨[rowW], 2⟩ uuidW false).db.rows ≠ [] →
      ∃ m : Nat, getTotalItemsFromDB false false
            (Env.mk (some uuidW) ⟨[rowW], 2⟩ uuidW false) =
          Except.ok (some m, Env.mk (some uuidW) ⟨[rowW], 2⟩ uuidW false) ∧
        (∃ x ∈ (Env.mk (some uuidW) ⟨[rowW], 2⟩ uuidW false).db.rows, x.id = m) ∧
        ∀ x ∈ (Env.mk (some uuidW) ⟨[rowW], 2⟩ uuidW false).db.rows, x.id ≤ m) ∧
    ((false = true ∨ false = true) →
      ∃ env2 : Env, getTotalItemsFromDB false false
          (Env.mk (some uuidW) ⟨[rowW], 2⟩ uuidW false) =
        Except.ok (some (((Env.mk (some uuidW) ⟨[rowW], 2⟩ uuidW false).db.rows.filter
          (rowFilter false false
            (if false then
              (getOrCreateUnboxerIdCookie
                (Env.mk (some uuidW) ⟨[rowW], 2⟩ uuidW false)).1
             else ""))).length), env2))) :=
  ⟨rfl, getTotalItemsFromDB_spec false false _ rfl⟩

/-- `addItemToDB` resolves to a value on every branch. -/
theorem addItemToDB_total (c : CaseDataType) (i : ItemType) (env : Env) :
    (addItemToDB c i env).isOk = true := by
  simp only [addItemToDB]
  split
  · split <;> simp [Except.isOk, Except.toBool]
  · simp [Except.isOk, Except.toBool]

/-- `addItemsToDB` resolves to a value on every branch. -/
theorem addItemsToDB_total (data : List (CaseDataType × ItemType)) (env : Env) :
    (addItemsToDB data env).isOk = true := by
  simp only [addItemsToDB]
  split
  · split <;> simp [Except.isOk, Except.toBool]
  · simp [Except.isOk, Except.toBool]

/-- `unboxCase` resolves to a value on every branch. -/
theorem unboxCase_total (catalog : List CaseDataType)
    (getItem : CaseDataType → ItemType) (caseId : String) (env : Env) :
    (unboxCase catalog getItem caseId env).isOk = true := by
  simp only [unboxCase]
  split
  · simp [Except.isOk, Except.toBool]
  · split
    · simp [Except.isOk, Except.toBool]
    · split <;> simp [Except.isOk, Except.toBool]

/-- `getItemsFromDB` resolves to a value on every branch. -/
theorem getItemsFromDB_total (oc op : Bool) (env : Env) :
    (getItemsFromDB oc op env).isOk = true := by
  simp only [getItemsFromDB]
  split <;> simp [Except.isOk, Except.toBool]

/-- `getTotalItemsFromDB` resolves to a value on every branch. -/
theorem getTotalItemsFromDB_total (oc op : Bool) (env : Env) :
    (getTotalItemsFromDB oc op env).isOk = true := by
  simp only [getTotalItemsFromDB]
  split <;> simp [Except.isOk, Except.toBool]

/-- A failed insert is caught: `addItemToDB` returns `false`. -/
theorem addItemToDB_dbFails (c : CaseDataType) (i : ItemType) (env : Env)
    (h : env.dbFails = true) :
    ∃ e : Env, addItemToDB c i env = Except.ok (false, e) := by
  simp only [addItemToDB]
  split
  · have h2 : (getOrCreateUnboxerIdCookie env).2.dbFails = true :=
      (getOrCreate_preserves env).2.1.trans h
    simp [dbInsertMany, h2]
  · exact ⟨env, rfl⟩

/-- A failed batch insert is caught: `addItemsToDB` returns `false`. -/
theorem addItemsToDB_dbFails (data : List (CaseDataType × ItemType)) (env : Env)
    (h : env.dbFails = true) :
    ∃ e : Env, addItemsToDB data env = Except.ok (false, e) := by
  simp only [addItemsToDB]
  split
  · have h2 : (getOrCreateUnboxerIdCookie env).2.dbFails = true :=
      (getOrCreate_preserves env).2.1.trans h
    simp [dbInsertMany, h2]
  · exact ⟨env, rfl⟩

/-- A failed select is caught: `getItemsFromDB` returns the `false`
sentinel. -/
theorem getItemsFromDB_dbFails (oc op : Bool) (env : Env)
    (h : env.dbFails = true) :
    ∃ e : Env, getItemsFromDB oc op env = Except.ok (none, e) := by
  have h2 : (if op then getOrCreateUnboxerIdCookie env else ("", env)).2.dbFails = true := by
    cases op <;> simp [h, (getOrCreate_preserves env).2.1]
  simp [getItemsFromDB, dbSelectRows, h2]

/-- A failed count/max select is caught: `getTotalItemsFromDB` returns the
`false` sentinel. -/
theorem getTotalItemsFromDB_dbFails (oc op : Bool) (env : Env)
    (h : env.dbFails = true) :
    ∃ e : Env, getTotalItemsFromDB oc op env = Except.ok (none, e) := by
  have h2 : (if op then getOrCreateUnboxerIdCookie env else ("", env)).2.dbFails = true := by
    cases op <;> simp [h, (getOrCreate_preserves env).2.1]
  simp [getTotalItemsFromDB, dbSelectTotal, h2]

/-- C8. No exported action ever propagates an exception (`.error`) to its
caller, and when the database fails every direct failure is converted into
the `false` sentinel return. -/
theorem actions_no_exception (catalog : List CaseDataType)
    (getItem : CaseDataType → ItemType) (caseId : String)
    (c : CaseDataType) (i : ItemType) (data : List (CaseDataType × ItemType))
    (oc op : Bool) (env : Env) :
    (unboxCase catalog getItem caseId env).isOk = true ∧
    (addItemToDB c i env).isOk = true ∧
    (addItemsToDB data env).isOk = true ∧
    (getItemsFromDB oc op env).isOk = true ∧
    (getTotalItemsFromDB oc op env).isOk = true ∧
    (env.dbFails = true →
      (∃ e : Env, addItemToDB c i env = Except.ok (false, e)) ∧
      (∃ e : Env, addItemsToDB data env = Except.ok (false, e)) ∧
      (∃ e : Env, getItemsFromDB oc op env = Except.ok (none, e)) ∧
      (∃ e : Env, getTotalItemsFromDB oc op env = Except.ok (none, e))) :=
  ⟨unboxCase_total catalog getItem caseId env,
   addItemToDB_total c i env,
   addItemsToDB_total data env,
   getItemsFromDB_total oc op env,
   getTotalItemsFromDB_total oc op env,
   fun h =>
     ⟨addItemToDB_dbFails c i env h,
      addItemsToDB_dbFails data env h,
      getItemsFromDB_dbFails oc op env h,
      getTotalItemsFromDB_dbFails oc op env h⟩⟩

/-- C8 witness: concrete inputs against a failing database. -/
theorem actions_no_exception_witness :
    (unboxCase [caseW] getItemW "crate-4001"
      (Env.mk (some uuidW) ⟨[], 1⟩ uuidW true)).isOk = true ∧
    (addItemToDB caseW itemW (Env.mk (some uuidW) ⟨[], 1⟩ uuidW true)).isOk = true ∧
    (addItemsToDB [(caseW, itemW)]
      (Env.mk (some uuidW) ⟨[], 1⟩ uuidW true)).isOk = true ∧
    (getItemsFromDB true true (Env.mk (some uuidW) ⟨[], 1⟩ uuidW true)).isOk = true ∧
    (getTotalItemsFromDB true true
      (Env.mk (some uuidW) ⟨[], 1⟩ uuidW true)).isOk = true ∧
    ((Env.mk (some uuidW) ⟨[], 1⟩ uuidW true).dbFails = true →
      (∃ e : Env, addItemToDB caseW itemW (Env.mk (some uuidW) ⟨[], 1⟩ uuidW true) =
        Except.ok (false, e)) ∧
      (∃ e : Env, addItemsToDB [(caseW, itemW)]
          (Env.mk (some uuidW) ⟨[], 1⟩ uuidW true) =
        Except.ok (false, e)) ∧
      (∃ e : Env, getItemsFromDB true true (Env.mk (some uuidW) ⟨[], 1⟩ uuidW true) =
        Except.ok (none, e)) ∧
      (∃ e : Env, getTotalItemsFromDB true true
          (Env.mk (some uuidW) ⟨[], 1⟩ uuidW true) =
        Except.ok (none, e))) :=
  actions_no_exception [caseW] getItemW "crate-4001" caseW itemW [(caseW, itemW)]
    true true (Env.mk (some uuidW) ⟨[], 1⟩ uuidW true)

end CaseSim
